import Mathlib

/-!
Shallow embedding of the stardust UI component library: the `Menu` component
(src/src/components/Menu/Menu.tsx), the `Label` component, and the conformance
test harness (src/test/specs/commonTests/isConformant.js).

JavaScript objects that carry props are embedded as association lists of
`String × JSValue`; the static prop declarations of each component are embedded
as the lists of their keys, in source order.
-/

namespace Stardust

/-- A JavaScript value as it occurs in component props: a string, an integer
number, a boolean, `undefined`, or a component/function reference (identified
by name, as for the `as` prop). -/
inductive JSValue where
  | str (s : String)
  | num (n : Int)
  | boolean (b : Bool)
  | undef
  | component (name : String)
  deriving DecidableEq

/-- Props objects are association lists from prop name to value; the first
binding of a key wins, as reading a JS object field does. -/
abbrev Props := List (String × JSValue)

/-- Read a prop from a props object: `some v` when the key is bound, `none`
when the key is absent. -/
def getProp (props : Props) (key : String) : Option JSValue :=
  match props.find? (fun kv => kv.1 = key) with
  | some kv => some kv.2
  | none => none

/-! ### JavaScript string sorting (Array.prototype.sort default comparator)

`Array.prototype.sort()` with no comparator sorts strings lexicographically by
code units. The prop names involved are ASCII, so comparing `Char` code points
agrees with code-unit comparison. -/

/-- Code-unit comparison of two characters. -/
def charLt (a b : Char) : Bool := a.val < b.val

/-- Lexicographic code-unit comparison of two strings, on their char lists. -/
def strLt : List Char → List Char → Bool
  | [], [] => false
  | [], _ :: _ => true
  | _ :: _, [] => false
  | a :: as, b :: bs => if a = b then strLt as bs else charLt a b

/-- Lexicographic comparison on `String`. -/
def jsStrLt (a b : String) : Bool := strLt a.data b.data

/-- Insert a string into a sorted list, keeping it sorted. -/
def insertSorted (x : String) : List String → List String
  | [] => [x]
  | y :: ys => if jsStrLt x y then x :: y :: ys else y :: insertSorted x ys

/-- Sort a list of strings as `Array.prototype.sort()` does (the lists sorted
here are duplicate-free, so stability is irrelevant). -/
def sortStrings : List String → List String
  | [] => []
  | x :: xs => insertSorted x (sortStrings xs)

/-- Lodash `_.union(a, b, c)`: the unique values of all the arrays, in order of
first occurrence. -/
def lodashUnion (xss : List (List String)) : List String :=
  (xss.flatten).eraseDups

/-- The expected handled props computed by the harness (isConformant.js lines
204-210): `_.uniq(_.union(autoControlledProps, keys(defaultProps),
keys(propTypes))).sort()`. The `_.uniq` is a no-op after `_.union`. -/
def computedHandledProps (autoControlled defaultPropsKeys propTypesKeys : List String) :
    List String :=
  sortStrings (lodashUnion [autoControlled, defaultPropsKeys, propTypesKeys])

/-! ### Menu static prop declarations (src/src/components/Menu/Menu.tsx) -/

/-- Menu.autoControlledProps (Menu.tsx line 15). -/
def Menu.autoControlledProps : List String := ["activeIndex"]

/-- Menu.className (Menu.tsx line 17). -/
def Menu.className : String := "ui-menu"

/-- The keys of Menu.propTypes, in declaration order (Menu.tsx lines 23-50). -/
def Menu.propTypesKeys : List String :=
  ["as", "activeIndex", "children", "className", "content", "defaultActiveIndex",
    "items", "pointing", "type"]

/-- The keys of Menu.defaultProps (Menu.tsx lines 52-55). -/
def Menu.defaultPropsKeys : List String := ["as", "type"]

/-- Menu.defaultProps.as (Menu.tsx line 53). -/
def Menu.defaultAs : String := "ul"

/-- Menu.handledProps, the static array as written in the source (Menu.tsx
lines 57-67). -/
def Menu.handledProps : List String :=
  ["activeIndex", "as", "children", "className", "defaultActiveIndex", "items",
    "pointing", "styles", "type"]

/-! ### Label static prop declarations (the Label component source file) -/

/-- Label extends UIComponent, which declares no autoControlledProps, so
`Label.autoControlledProps` is undefined and `_.union` skips it. -/
def Label.autoControlledProps : List String := []

/-- Label.className. -/
def Label.className : String := "ui-label"

/-- The keys of Label.propTypes, in declaration order. -/
def Label.propTypesKeys : List String :=
  ["as", "children", "circular", "className", "content", "styles"]

/-- The keys of Label.defaultProps. -/
def Label.defaultPropsKeys : List String := ["as"]

/-- Label.defaultProps.as. -/
def Label.defaultAs : String := "label"

/-- Label.handledProps, the static array as written in the source. -/
def Label.handledProps : List String :=
  ["as", "children", "circular", "className", "content", "styles"]

/-! ### The rendering frame shared by Menu and Label

Both components implement only `renderComponent({ ElementType, classes, rest })`
(Menu.tsx lines 98-105 and the identical Label method); the surrounding frame —
resolving `ElementType` from the `as` prop, splitting props into handled and
unhandled, and computing `classes.root` — lives in src/lib, which is not part
of the sources here, and is modelled from the spec below. -/

/-- Split a className string on spaces, dropping empty fragments, the way the
harness enumerates the individual classes of a className attribute. -/
def splitClassesAux : List Char → List Char → List String
  | current, [] => if current = [] then [] else [String.mk current]
  | current, ' ' :: cs =>
      if current = [] then splitClassesAux [] cs
      else String.mk current :: splitClassesAux [] cs
  | current, c :: cs => splitClassesAux (current ++ [c]) cs

/-- Split a className string on spaces. -/
def splitClasses (s : String) : List String := splitClassesAux [] s.data

/-- Modelled from the spec: `getUnhandledProps` (src/lib, not among the
sources) returns the props the component does not handle, i.e. the bindings
whose key is not in Component.handledProps; the harness failure message names
it as the util that spreads the `rest` props. -/
def getUnhandledProps (handledProps : List String) (props : Props) : Props :=
  props.filter (fun kv => !(handledProps.contains kv.1))

/-- Modelled from the spec: `getElementType` (src/lib, not among the sources)
resolves the rendered element type: the `as` prop when the caller supplied one,
otherwise the component's default from Component.defaultProps. -/
def getElementType (defaultAs : String) (props : Props) : JSValue :=
  match getProp props "as" with
  | some v => v
  | none => .str defaultAs

/-- Modelled from the spec: the lib computes `classes.root` by merging the
component's static className (and any style-rule classes) with the
user-supplied className; user classes are appended after the defaults, never
replacing them. -/
def rootClasses (staticClassName : String) (props : Props) : List String :=
  splitClasses staticClassName ++
    (match getProp props "className" with
     | some (.str u) => splitClasses u
     | _ => [])

/-- Modelled from the spec: `childrenExist` (src/lib, not among the sources)
reports whether the caller provided a children value. -/
def childrenExist (children : Option JSValue) : Bool := children.isSome

/-- The body both renderComponent methods put inside the root element:
`childrenExist(children) ? children : content` (Menu.tsx line 102 and the
identical Label line). -/
def renderBody (children content : Option JSValue) : Option JSValue :=
  if childrenExist children then children else content

/-- A rendered root element: its tag (or delegated-to component), the spread
`rest` attributes, the classes of its className attribute, and its body. -/
structure Element where
  tag : JSValue
  attrs : Props
  classNames : List String
  body : Option JSValue
  deriving DecidableEq

/-- The rendered root of a Menu-or-Label-style component:
`<ElementType {...rest} className={classes.root}>` with the body chosen from
children/content (Menu.tsx lines 98-105), under the frame modelled above. -/
def renderComponent (staticClassName : String) (handledProps : List String)
    (defaultAs : String) (props : Props) : Element :=
  { tag := getElementType defaultAs props
    attrs := getUnhandledProps handledProps props
    classNames := rootClasses staticClassName props
    body := renderBody (getProp props "children") (getProp props "content") }

/-- Rendering a Menu. -/
def Menu.render (props : Props) : Element :=
  renderComponent Menu.className Menu.handledProps Menu.defaultAs props

/-- Rendering a Label. -/
def Label.render (props : Props) : Element :=
  renderComponent Label.className Label.handledProps Label.defaultAs props

/-! ### Events (claim C4) -/

/-- A simulated synthetic event, identified by its event type. -/
structure SyntheticEvent where
  eventType : String
  deriving DecidableEq

/-- An observable effect of the onClick override Menu installs on its items. -/
inductive MenuEffect where
  | trySetActiveIndex (index : JSValue)
  | callPredefinedOnClick (e : SyntheticEvent) (itemProps : Props)
  deriving DecidableEq

/-- From Menu.handleItemOverrides (Menu.tsx lines 71-79): the onClick override
reads `index` from the item props, attempts the auto-controlled state update
via trySetState, and then invokes the predefined onClick through lodash
`_.invoke`, which is a no-op when the predefined props carry no onClick. -/
def handleItemOverridesOnClick (predefinedHasOnClick : Bool) (e : SyntheticEvent)
    (itemProps : Props) : List MenuEffect :=
  [MenuEffect.trySetActiveIndex ((getProp itemProps "index").getD JSValue.undef)]
    ++ (if predefinedHasOnClick then [MenuEffect.callPredefinedOnClick e itemProps] else [])

/-- Modelled from the spec: the event dispatch of the host framework together
with the spread of unhandled props (src/lib, not among the sources) makes a
declared listener prop fire exactly once per simulated event, with the event
object first, followed by the full props object when the listener is declared
in Component.propTypes. Each entry is one handler call with its arguments. -/
def simulateEventCalls (listenerDeclaredInPropTypes : Bool) (e : SyntheticEvent)
    (props : Props) : List (SyntheticEvent × Option Props) :=
  if listenerDeclaredInPropTypes then [(e, some props)] else [(e, none)]

/-- Whether an effect is a call of the predefined onClick. -/
def isPredefinedOnClickCall : MenuEffect → Bool
  | MenuEffect.callPredefinedOnClick _ _ => true
  | _ => false

/-! ### The activeIndex state machine (claim C6) -/

/-- Modelled from the spec: AutoControlledComponent.trySetState (src/lib, not
among the sources) applies a state update only when the caller has not
supplied the corresponding auto-controlled prop. -/
def trySetState (activeIndexControlled : Bool) (current incoming : Option Nat) :
    Option Nat :=
  if activeIndexControlled then current else incoming

/-- A click on rendered item k of a Menu with n items: the onClick override
(Menu.tsx lines 71-79) attempts to set activeIndex to the index of the clicked
item, which renderItems assigned as its position in the collection. -/
def clickItem (activeIndexControlled : Bool) (n : Nat) (st : Option Nat) (k : Fin n) :
    Option Nat :=
  trySetState activeIndexControlled st (some k.val)

/-- Run a sequence of item clicks against the activeIndex state. -/
def runClicks (activeIndexControlled : Bool) (n : Nat) :
    Option Nat → List (Fin n) → Option Nat
  | st, [] => st
  | st, k :: ks =>
      runClicks activeIndexControlled n (clickItem activeIndexControlled n st k) ks

/-- The bounds invariant on the auto-managed activeIndex state: when set, it
falls within the bounds of the rendered collection. -/
def activeIndexInBounds (n : Nat) : Option Nat → Prop
  | none => True
  | some i => i < n

/-! ### Menu.renderItems and JavaScript parseInt (claim C9) -/

/-- The value of a run of decimal digits. -/
def digitsToNat (ds : List Char) : Nat :=
  ds.foldl (fun acc c => acc * 10 + (c.toNat - 48)) 0

/-- JavaScript parseInt on a character sequence with radix 10: skip leading
whitespace, read an optional sign, then the leading run of decimal digits,
ignoring everything after it; the result is NaN, embedded as none, when no
digit follows. -/
def parseIntChars (cs : List Char) : Option Int :=
  let trimmed := cs.dropWhile (fun c => c == ' ' || c == '\t' || c == '\n' || c == '\r')
  match trimmed with
  | '-' :: rest =>
      let ds := rest.takeWhile Char.isDigit
      if ds = [] then none else some (-(digitsToNat ds : Int))
  | '+' :: rest =>
      let ds := rest.takeWhile Char.isDigit
      if ds = [] then none else some ((digitsToNat ds : Int))
  | other =>
      let ds := other.takeWhile Char.isDigit
      if ds = [] then none else some ((digitsToNat ds : Int))

/-- JavaScript parseInt(v, 10) for the values activeIndex may hold: the value
is first converted to a string — an integer prints in decimal and reparses to
itself, while undefined, booleans and functions stringify to forms with no
leading digit, giving NaN — and the string is then parsed. -/
def jsParseInt : JSValue → Option Int
  | JSValue.num n => some n
  | JSValue.str s => parseIntChars s.data
  | _ => none

/-- A MenuItem as produced by Menu.renderItems: MenuItem.create(item, ...) with
the defaultProps of Menu.tsx lines 87-92 and the onClick override. -/
structure RenderedItem where
  itemShorthand : JSValue
  itemType : Option JSValue
  pointing : Option JSValue
  index : Nat
  active : Bool
  deriving DecidableEq

/-- From Menu.renderItems (Menu.tsx lines 81-96), generalized over the start
position of the lodash map: each item shorthand becomes a MenuItem whose index
is its position and which is active exactly when parseInt(activeIndex, 10)
equals that position. -/
def renderItemsFrom (typeProp pointingProp : Option JSValue) (activeIndex : JSValue) :
    Nat → List JSValue → List RenderedItem
  | _, [] => []
  | i, item :: rest =>
      { itemShorthand := item, itemType := typeProp, pointing := pointingProp,
        index := i, active := jsParseInt activeIndex == some (i : Int) }
        :: renderItemsFrom typeProp pointingProp activeIndex (i + 1) rest

/-- Menu.renderItems: the lodash map runs over the items from position 0. -/
def renderItems (typeProp pointingProp : Option JSValue) (items : List JSValue)
    (activeIndex : JSValue) : List RenderedItem :=
  renderItemsFrom typeProp pointingProp activeIndex 0 items

/-! ### Shorthand factories (claim C8) -/

/-- A configured component instance, as a factory produces it. -/
structure ComponentInstance where
  componentName : String
  props : Props
  deriving DecidableEq

/-- Modelled from the spec: createShorthandFactory (src/lib, not among the
sources) builds a factory that converts a plain value into a fully-configured
instance of the given component, its props obtained by mapping the value
through the supplied mapValueToProps function. -/
def createShorthandFactory (componentName : String) (mapValueToProps : JSValue → Props) :
    JSValue → ComponentInstance :=
  fun v => { componentName := componentName, props := mapValueToProps v }

/-- Menu.create (Menu.tsx line 108): the plain value becomes the content prop. -/
def Menu.create : JSValue → ComponentInstance :=
  createShorthandFactory "Menu" (fun content => [("content", content)])

/-- Label.create (Label source, last line): the plain value becomes the content
prop. -/
def Label.create : JSValue → ComponentInstance :=
  createShorthandFactory "Label" (fun content => [("content", content)])

/-! ### The isConformant harness control flow (claim C7) -/

/-- The component facts and options isConformant inspects while deciding what
to do (isConformant.js lines 19-71): the typeof of the component, its
constructor name, whether its metadata info JSON file resolves, and the
isChild flag of that info, together with the rendersChildren and rendersPortal
options (defaulting to true and false). -/
structure ConformantInput where
  componentType : String
  constructorName : String
  infoFileExists : Bool
  isChild : Bool
  rendersChildren : Bool
  rendersPortal : Bool
  deriving DecidableEq

/-- A test registered with the test runner: either one whose body
unconditionally throws (the missing-info report) or one that checks component
behaviour. -/
inductive RegisteredTest where
  | alwaysFails (testName : String)
  | checks (testName : String)
  deriving DecidableEq

/-- What a call of the isConformant harness does: either it throws an error
outside any test, or it registers a list of tests. -/
inductive HarnessOutcome where
  | errorOutsideTests (message : String)
  | testsRegistered (tests : List RegisteredTest)
  deriving DecidableEq

/-- The tests isConformant registers when the component info file exists, in
source order (isConformant.js lines 76-369); quote characters of the jest test
names are elided. -/
def fullTestList (c : ConformantInput) : List RegisteredTest :=
  [RegisteredTest.checks ("constructor name matches filename " ++ c.constructorName),
    RegisteredTest.checks "is exported at the top level"]
  ++ (if c.isChild then [RegisteredTest.checks "is a static component on its parent"] else [])
  ++ (if c.rendersChildren then [RegisteredTest.checks "spreads user props"] else [])
  ++ (if c.rendersChildren && !c.rendersPortal then
        [RegisteredTest.checks
            "renders the component as HTML tags or passes as to the next component",
          RegisteredTest.checks
            "renders as a functional component or passes as to the next component",
          RegisteredTest.checks
            "renders as a ReactClass or passes as to the next component",
          RegisteredTest.checks "passes extra props to the component it is renders as"]
      else [])
  ++ [RegisteredTest.checks "defines handled props in Component.handledProps",
      RegisteredTest.checks "Component.handledProps includes all handled props"]
  ++ (if c.rendersChildren then [RegisteredTest.checks "handles events transparently"] else [])
  ++ [RegisteredTest.checks "_meta does not exist"]
  ++ (if c.rendersChildren then
        [RegisteredTest.checks "has the Semantic UI className",
          RegisteredTest.checks "applies the user className to root component",
          RegisteredTest.checks "the user className does not override the default classes"]
      else [])

/-- The isConformant harness control flow (isConformant.js lines 19-71): a
component that is not a function, or whose constructor has no name, makes the
harness throw through throwError before any test is registered; a missing
info file registers exactly one always-failing test and returns; otherwise the
full test list is registered. -/
def isConformant (c : ConformantInput) : HarnessOutcome :=
  if c.componentType ≠ "function" then
    HarnessOutcome.errorOutsideTests
      ("Components should export a class or function, got: " ++ c.componentType ++ ".")
  else if c.constructorName = "" then
    HarnessOutcome.errorOutsideTests "Component is not a named function."
  else if c.infoFileExists then
    HarnessOutcome.testsRegistered (fullTestList c)
  else
    HarnessOutcome.testsRegistered [RegisteredTest.alwaysFails "component info file exists"]

end Stardust

namespace Stardust

/-- C1: the harness asserts Component.handledProps equals the sorted,
deduplicated union of autoControlledProps, the keys of defaultProps and the
keys of propTypes. Label satisfies the assertion, but Menu does not: the
computed union contains "content" (declared in Menu.propTypes) which is missing
from Menu.handledProps, while Menu.handledProps contains "styles" which occurs
in none of the three sources. -/
theorem c1_handledProps_assertion_fails_for_Menu :
    computedHandledProps Label.autoControlledProps Label.defaultPropsKeys Label.propTypesKeys
        = Label.handledProps
    ∧ computedHandledProps Menu.autoControlledProps Menu.defaultPropsKeys Menu.propTypesKeys
        ≠ Menu.handledProps
    ∧ "content" ∈
        computedHandledProps Menu.autoControlledProps Menu.defaultPropsKeys Menu.propTypesKeys
    ∧ "content" ∉ Menu.handledProps
    ∧ "styles" ∈ Menu.handledProps
    ∧ "styles" ∉
        computedHandledProps Menu.autoControlledProps Menu.defaultPropsKeys Menu.propTypesKeys := by
  decide

/-- Reading a prop from a props object whose head binds that key. -/
theorem getProp_cons_self (key : String) (v : JSValue) (props : Props) :
    getProp ((key, v) :: props) key = some v := by
  simp [getProp, List.find?_cons_of_pos]

/-- The root classes after prepending a user className: the static classes
followed by the user classes. -/
theorem rootClasses_cons_className (staticCN u : String) (props : Props) :
    rootClasses staticCN (("className", JSValue.str u) :: props)
      = splitClasses staticCN ++ splitClasses u := by
  simp [rootClasses, getProp_cons_self]

/-- The root classes of a render with no user className: just the static
classes. -/
theorem rootClasses_of_no_className (staticCN : String) (props : Props)
    (h : getProp props "className" = none) :
    rootClasses staticCN props = splitClasses staticCN := by
  simp [rootClasses, h]

/-- C2: a user-supplied className is merged with, and never replaces, the
default classes: every class of the default rendering stays present after the
user className is added, every user class is present as well, and in
particular Menu keeps its "ui-menu" class. -/
theorem c2_user_className_merged
    (staticCN defaultAs u c : String) (handled : List String) (props : Props)
    (hnone : getProp props "className" = none) :
    (c ∈ (renderComponent staticCN handled defaultAs props).classNames →
      c ∈ (renderComponent staticCN handled defaultAs
            (("className", JSValue.str u) :: props)).classNames)
    ∧ (c ∈ splitClasses u →
      c ∈ (renderComponent staticCN handled defaultAs
            (("className", JSValue.str u) :: props)).classNames)
    ∧ Menu.className ∈ (Menu.render [("className", JSValue.str u)]).classNames := by
  refine ⟨?_, ?_, ?_⟩
  · intro hc
    simp only [renderComponent, rootClasses_cons_className,
      rootClasses_of_no_className staticCN props hnone] at *
    exact List.mem_append.mpr (Or.inl hc)
  · intro hc
    simp only [renderComponent, rootClasses_cons_className]
    exact List.mem_append.mpr (Or.inr hc)
  · show Menu.className ∈ rootClasses Menu.className [("className", JSValue.str u)]
    have h := rootClasses_cons_className Menu.className u []
    rw [h]
    exact List.mem_append.mpr (Or.inl (by decide))

/-- C2 witness at a concrete input. -/
theorem c2_user_className_merged_witness :
    ("ui-menu" ∈ (renderComponent "ui-menu" Menu.handledProps "ul"
        [("className", JSValue.str "my-class")]).classNames)
    ∧ ("my-class" ∈ (renderComponent "ui-menu" Menu.handledProps "ul"
        [("className", JSValue.str "my-class")]).classNames) := by
  have h := c2_user_className_merged "ui-menu" "ul" "my-class" "ui-menu"
    Menu.handledProps [] rfl
  have h2 := c2_user_className_merged "ui-menu" "ul" "my-class" "my-class"
    Menu.handledProps [] rfl
  exact ⟨h.1 (by decide), h2.2.1 (by decide)⟩

/-- C3: the as prop changes the rendered tag: when the caller supplies an as
value the rendered root is that value, and absent an as prop the component
renders its default element type, ul for Menu and label for Label. -/
theorem c3_as_prop_changes_tag (staticCN defaultAs : String) (handled : List String)
    (props : Props) (v : JSValue) :
    (getProp props "as" = some v →
      (renderComponent staticCN handled defaultAs props).tag = v)
    ∧ (getProp props "as" = none →
      (renderComponent staticCN handled defaultAs props).tag = JSValue.str defaultAs)
    ∧ (Menu.render []).tag = JSValue.str "ul"
    ∧ (Label.render []).tag = JSValue.str "label" := by
  refine ⟨?_, ?_, rfl, rfl⟩ <;> intro h <;> simp [renderComponent, getElementType, h]

/-- C3 witness at a concrete input. -/
theorem c3_as_prop_changes_tag_witness :
    (renderComponent "ui-menu" Menu.handledProps "ul"
        [("as", JSValue.str "div")]).tag = JSValue.str "div"
    ∧ (renderComponent "ui-menu" Menu.handledProps "ul" []).tag = JSValue.str "ul" := by
  have h := c3_as_prop_changes_tag "ui-menu" "ul" Menu.handledProps
    [("as", JSValue.str "div")] (JSValue.str "div")
  have h2 := c3_as_prop_changes_tag "ui-menu" "ul" Menu.handledProps [] (JSValue.str "div")
  exact ⟨h.1 (by decide), h2.2.1 (by decide)⟩

/-- C5: a prop whose key is not among the handled props is passed through
unchanged to the rendered root element. -/
theorem c5_unhandled_props_spread (staticCN defaultAs k : String)
    (handled : List String) (v : JSValue) (props : Props)
    (hk : k ∉ handled) (hmem : (k, v) ∈ props) :
    (k, v) ∈ (renderComponent staticCN handled defaultAs props).attrs := by
  have hc : handled.contains k = false := by
    simp [List.elem_iff]
    exact hk
  show (k, v) ∈ getUnhandledProps handled props
  simp only [getUnhandledProps]
  refine List.mem_filter.mpr ⟨hmem, ?_⟩
  show (!(handled.contains k)) = true
  rw [hc]
  rfl

/-- C5 witness at a concrete input: the data attribute the harness uses. -/
theorem c5_unhandled_props_spread_witness :
    ("data-is-conformant-spread-props", JSValue.boolean true) ∈
      (renderComponent Menu.className Menu.handledProps Menu.defaultAs
        [("data-is-conformant-spread-props", JSValue.boolean true)]).attrs := by
  exact c5_unhandled_props_spread Menu.className Menu.defaultAs
    "data-is-conformant-spread-props" Menu.handledProps (JSValue.boolean true)
    [("data-is-conformant-spread-props", JSValue.boolean true)]
    (by decide) (by decide)

/-- C10: when children exist the rendered body is the children and content is
ignored; content is rendered only when no children exist; Menu and Label both
render their body through this choice. -/
theorem c10_children_over_content (children content : Option JSValue) (props : Props) :
    (childrenExist children = true → renderBody children content = children)
    ∧ (childrenExist children = false → renderBody children content = content)
    ∧ (Menu.render props).body
        = renderBody (getProp props "children") (getProp props "content")
    ∧ (Label.render props).body
        = renderBody (getProp props "children") (getProp props "content") := by
  refine ⟨?_, ?_, rfl, rfl⟩ <;> intro h <;> simp [renderBody, h]

/-- C4: a simulated event on the element carrying a declared listener fires
the handler exactly once, with the event first and the full props object
second exactly when the listener is declared in propTypes; the onClick
override Menu installs on its items calls the predefined onClick exactly once,
with the event and the item props, after the activeIndex update attempt, and
not at all when the predefined props carry no onClick. -/
theorem c4_events_transparent (e : SyntheticEvent) (itemProps props : Props) (b : Bool) :
    (simulateEventCalls b e props).length = 1
    ∧ simulateEventCalls true e props = [(e, some props)]
    ∧ simulateEventCalls false e props = [(e, none)]
    ∧ handleItemOverridesOnClick true e itemProps
        = [MenuEffect.trySetActiveIndex ((getProp itemProps "index").getD JSValue.undef),
            MenuEffect.callPredefinedOnClick e itemProps]
    ∧ (handleItemOverridesOnClick true e itemProps).countP isPredefinedOnClickCall = 1
    ∧ (handleItemOverridesOnClick false e itemProps).countP isPredefinedOnClickCall = 0 := by
  refine ⟨?_, rfl, rfl, rfl, rfl, rfl⟩
  cases b <;> rfl

/-- C8: the shorthand factories of Menu and Label turn a plain value into a
configured instance of the respective component whose content prop is that
value. -/
theorem c8_shorthand_factories (v : JSValue) :
    (Menu.create v).componentName = "Menu"
    ∧ getProp (Menu.create v).props "content" = some v
    ∧ (Label.create v).componentName = "Label"
    ∧ getProp (Label.create v).props "content" = some v := by
  refine ⟨rfl, ?_, rfl, ?_⟩ <;> exact getProp_cons_self "content" v []

/-- C7 counterexample: handing the harness a value that is not a function (for
example the string resulting from a broken export) makes it throw through
throwError before any test is registered, a failure mode that is not a test
assertion failure. -/
theorem c7_counterexample_throws_outside_tests :
    isConformant
        { componentType := "string", constructorName := "", infoFileExists := false,
          isChild := false, rendersChildren := true, rendersPortal := false }
      = HarnessOutcome.errorOutsideTests
          "Components should export a class or function, got: string." := by
  rfl

/-- C7 amended: for a component that is a function with a nonempty constructor
name, a missing metadata info file makes the harness register exactly one
failing test reporting the missing file and return without running any further
checks. -/
theorem c7_missing_info_registers_one_failing_test (c : ConformantInput)
    (hfn : c.componentType = "function") (hname : c.constructorName ≠ "")
    (hinfo : c.infoFileExists = false) :
    isConformant c
      = HarnessOutcome.testsRegistered
          [RegisteredTest.alwaysFails "component info file exists"] := by
  simp [isConformant, hfn, hname, hinfo]

/-- C7 witness at a concrete input. -/
theorem c7_missing_info_registers_one_failing_test_witness :
    isConformant
        { componentType := "function", constructorName := "Menu", infoFileExists := false,
          isChild := false, rendersChildren := true, rendersPortal := false }
      = HarnessOutcome.testsRegistered
          [RegisteredTest.alwaysFails "component info file exists"] :=
  c7_missing_info_registers_one_failing_test _ rfl (by decide) rfl

/-- C10 witness at a concrete input. -/
theorem c10_children_over_content_witness :
    renderBody (some (JSValue.str "kid")) (some (JSValue.str "text"))
        = some (JSValue.str "kid")
    ∧ renderBody none (some (JSValue.str "text")) = some (JSValue.str "text") := by
  have h := c10_children_over_content (some (JSValue.str "kid"))
    (some (JSValue.str "text")) []
  have h2 := c10_children_over_content none (some (JSValue.str "text")) []
  exact ⟨h.1 rfl, h2.2.1 rfl⟩

/-- Every MenuItem rendered by the generalized map is active exactly when
parseInt(activeIndex, 10) equals its index, and its index lies in the mapped
range. -/
theorem mem_renderItemsFrom (tp pp : Option JSValue) (ai : JSValue) :
    ∀ (items : List JSValue) (i : Nat) (it : RenderedItem),
      it ∈ renderItemsFrom tp pp ai i items →
      (it.active = true ↔ jsParseInt ai = some (it.index : Int))
      ∧ i ≤ it.index ∧ it.index < i + items.length := by
  intro items
  induction items with
  | nil =>
      intro i it h
      simp [renderItemsFrom] at h
  | cons head tail ih =>
      intro i it h
      rw [renderItemsFrom] at h
      rcases List.mem_cons.mp h with h1 | h2
      · subst h1
        refine ⟨?_, Nat.le_refl i, ?_⟩
        · simp [beq_iff_eq]
        · simp only [List.length_cons]
          omega
      · obtain ⟨ha, hlo, hhi⟩ := ih (i + 1) it h2
        refine ⟨ha, by omega, ?_⟩
        simp only [List.length_cons]
        omega

/-- When parseInt(activeIndex, 10) matches no index at or past the start
position, no rendered MenuItem is active. -/
theorem countP_active_renderItemsFrom_eq_zero (tp pp : Option JSValue) (ai : JSValue) :
    ∀ (items : List JSValue) (i : Nat),
      (∀ j : Nat, i ≤ j → jsParseInt ai ≠ some (j : Int)) →
      (renderItemsFrom tp pp ai i items).countP (fun it => it.active) = 0 := by
  intro items
  induction items with
  | nil => intro i _; rfl
  | cons head tail ih =>
      intro i h
      rw [renderItemsFrom, List.countP_cons]
      have hhead : (jsParseInt ai == some (i : Int)) = false := by
        rw [beq_eq_false_iff_ne]
        exact h i (Nat.le_refl i)
      have htail := ih (i + 1) (fun j hj => h j (by omega))
      simp [htail, hhead]

/-- At most one MenuItem rendered by the generalized map is active. -/
theorem countP_active_renderItemsFrom_le_one (tp pp : Option JSValue) (ai : JSValue) :
    ∀ (items : List JSValue) (i : Nat),
      (renderItemsFrom tp pp ai i items).countP (fun it => it.active) ≤ 1 := by
  intro items
  induction items with
  | nil => intro i; simp [renderItemsFrom]
  | cons head tail ih =>
      intro i
      rw [renderItemsFrom, List.countP_cons]
      cases hb : (jsParseInt ai == some (i : Int)) with
      | false =>
          have := ih (i + 1)
          simp [hb]
          omega
      | true =>
          have hpa : jsParseInt ai = some (i : Int) := by rwa [beq_iff_eq] at hb
          have hzero : (renderItemsFrom tp pp ai (i + 1) tail).countP
              (fun it => it.active) = 0 := by
            apply countP_active_renderItemsFrom_eq_zero
            intro j hj hc
            rw [hpa] at hc
            have hij : (i : Int) = (j : Int) := Option.some.inj hc
            have : i = j := by exact_mod_cast hij
            omega
          simp [hb, hzero]

/-- C9: at most one MenuItem rendered by Menu.renderItems receives active,
namely the one whose position equals parseInt(activeIndex, 10); when the parse
yields NaN, as for an undefined activeIndex, every item is inactive. -/
theorem c9_at_most_one_active (tp pp : Option JSValue) (ai : JSValue)
    (items : List JSValue) (it : RenderedItem)
    (hmem : it ∈ renderItems tp pp items ai) :
    (renderItems tp pp items ai).countP (fun x => x.active) ≤ 1
    ∧ (it.active = true ↔ jsParseInt ai = some (it.index : Int))
    ∧ (jsParseInt ai = none → it.active = false)
    ∧ jsParseInt JSValue.undef = none := by
  obtain ⟨ha, _, _⟩ := mem_renderItemsFrom tp pp ai items 0 it hmem
  refine ⟨countP_active_renderItemsFrom_le_one tp pp ai items 0, ha, ?_, rfl⟩
  intro hnone
  cases hact : it.active with
  | false => rfl
  | true => exact absurd (ha.mp hact) (by simp [hnone])

/-- C9 witness at a concrete input: two items with activeIndex the string 1. -/
theorem c9_at_most_one_active_witness :
    (renderItems none none [JSValue.str "a", JSValue.str "b"]
        (JSValue.str "1")).countP (fun x => x.active) ≤ 1
    ∧ ({ itemShorthand := JSValue.str "b", itemType := none, pointing := none,
          index := 1, active := true } : RenderedItem).active = true := by
  have h := c9_at_most_one_active none none (JSValue.str "1")
    [JSValue.str "a", JSValue.str "b"]
    { itemShorthand := JSValue.str "b", itemType := none, pointing := none,
      index := 1, active := true }
    (by decide)
  exact ⟨h.1, h.2.1.mpr (by decide)⟩

/-- C6: the auto-managed activeIndex stays within the bounds of the rendered
collection: starting from an in-bounds state, every sequence of item clicks
(each click carrying the position index renderItems assigned to a rendered
item) leaves the state in bounds, whether or not the caller controls the prop;
and every rendered item index is indeed below the collection length. -/
theorem c6_activeIndex_stays_in_bounds (controlled : Bool) (n : Nat)
    (st : Option Nat) (ks : List (Fin n)) (h : activeIndexInBounds n st) :
    activeIndexInBounds n (runClicks controlled n st ks)
    ∧ ∀ (tp pp : Option JSValue) (ai : JSValue) (items : List JSValue)
        (it : RenderedItem), it ∈ renderItems tp pp items ai →
          it.index < items.length := by
  constructor
  · revert h
    induction ks generalizing st with
    | nil => intro h; exact h
    | cons k ks ih =>
        intro h
        show activeIndexInBounds n (runClicks controlled n (clickItem controlled n st k) ks)
        apply ih
        unfold clickItem trySetState
        cases controlled with
        | true => exact h
        | false => exact k.isLt
  · intro tp pp ai items it hmem
    have := (mem_renderItemsFrom tp pp ai items 0 it hmem).2.2
    omega

/-- C6 witness at a concrete input: three items, clicks on items 2 then 0. -/
theorem c6_activeIndex_stays_in_bounds_witness :
    activeIndexInBounds 3 (runClicks false 3 none [(2 : Fin 3), (0 : Fin 3)])
    ∧ ({ itemShorthand := JSValue.str "y", itemType := none, pointing := none,
          index := 1, active := false } : RenderedItem).index
        < [JSValue.str "x", JSValue.str "y"].length := by
  have h := c6_activeIndex_stays_in_bounds false 3 none [(2 : Fin 3), (0 : Fin 3)] trivial
  refine ⟨h.1, ?_⟩
  exact h.2 none none JSValue.undef [JSValue.str "x", JSValue.str "y"]
    { itemShorthand := JSValue.str "y", itemType := none, pointing := none,
      index := 1, active := false }
    (by decide)

end Stardust
